import Mathlib

/-
Verification of the nsdal NetSuite data-access layer (shallow embedding).

The source is a single IIFE populating the `nsdal` namespace.  It builds
typed "active record" wrappers around an untyped NetSuite record handle
(nlobjRecord): per-field accessor properties produced by four converter
descriptors (date/time, multiselect, checkbox, default), a fixed allow-list
of pass-through methods, and an array-like sublist (line-item) adapter.

Embedding conventions:
  * JavaScript values are the inductive `JSVal`; the JS "undefined"
    sentinel is `JSVal.undef` and JS truthiness is the `truthy` function.
  * A converter descriptor getter is modelled as a function from the raw
    value the bound getter would return to the surfaced value; a setter is
    modelled as the list of arguments passed to the underlying bound
    setter (so `[]` means the underlying setter was never invoked, and a
    one-element list means it was invoked exactly once with that value).
  * The external moment / nlapiStringToDate / nlapiDateToString
    collaborators are modelled symbolically: parsing a raw value v under
    field type ft yields the value `JSVal.momentDate v ft`, and
    serialization is an injective string encoding.
  * Getter/setter binding coordinates (which record accessor is bound,
    and with which leading arguments) are reified as `Binding` values.
-/

set_option autoImplicit false

namespace Nsdal

/-- JavaScript values as used by the nsdal converters.  Multiselect values
are lists of internal-id strings (per the NetSuite API).  `momentDate v ft`
models the external `moment(nlapiStringToDate(v, ft))` parse result. -/
inductive JSVal where
  | undef
  | null
  | bool (b : Bool)
  | str (s : String)
  | num (n : Int)
  | list (xs : List String)
  | momentDate (src : JSVal) (fieldType : String)
deriving DecidableEq, Repr

/-- JavaScript truthiness for the modelled values.  Note that a list
(array) is always truthy in JavaScript, even when empty. -/
def truthy : JSVal → Bool
  | .undef => false
  | .null => false
  | .bool b => b
  | .str s => s != ""
  | .num n => n != 0
  | .list _ => true
  | .momentDate _ _ => true

/-- Injective string encoding of a modelled value, used to model external
serialization of dates faithfully but symbolically. -/
def encode : JSVal → String
  | .undef => "undefined"
  | .null => "null"
  | .bool b => toString b
  | .str s => "str:" ++ s
  | .num n => toString n
  | .list xs => "list:" ++ String.intercalate "," xs
  | .momentDate src ft => "moment:" ++ ft ++ ":" ++ encode src

/-- Models the external `moment(value).toDate()` conversion: the native
date is represented by the value it was built from. -/
def momentToDate (v : JSVal) : JSVal := v

/-- Models the external `nlapiDateToString(nativeDate, fieldType)`
serialization back to the remote string format for the sub-type. -/
def nlapiDateToString (d : JSVal) (fieldType : String) : String :=
  "nsformat:" ++ fieldType ++ ":" ++ encode d

/-- A property descriptor as produced by the four descriptor factories:
`get` maps the raw value returned by the bound getter to the surfaced
value; `set` maps the assigned value to the list of arguments passed to
the underlying bound setter (empty list = setter never invoked). -/
structure Descriptor where
  get : JSVal → JSVal
  set : JSVal → List JSVal
  enumerable : Bool

/-- Source function `dateTimeDescriptor(fieldType, getter, setter)`:
get returns the raw value unchanged when falsy, otherwise
`moment(nlapiStringToDate(value, fieldType))`; set ignores `undefined`,
and otherwise calls the setter once, with
`nlapiDateToString(moment(value).toDate(), fieldType)` when the assigned
value is truthy and with `null` when it is falsy. -/
def dateTimeDescriptor (fieldType : String) : Descriptor where
  get raw := if truthy raw then .momentDate raw fieldType else raw
  set v :=
    if v = .undef then []
    else if truthy v then [.str (nlapiDateToString (momentToDate v) fieldType)]
    else [.null]
  enumerable := true

/-- Source function `multiSelectDescriptor(getter, setter)`: get returns
the raw value when truthy and `[]` otherwise; set ignores `undefined` and
forwards any other value as-is. -/
def multiSelectDescriptor : Descriptor where
  get raw := if truthy raw then raw else .list []
  set v := if v = .undef then [] else [v]
  enumerable := true

/-- Source function `checkboxDescriptor(getter, setter)`: get compares the
raw value to the literal string "T" with strict equality; set ignores
`undefined`, maps strict `true` to "T" and anything else to "F". -/
def checkboxDescriptor : Descriptor where
  get raw := .bool (decide (raw = .str "T"))
  set v :=
    if v = .undef then []
    else [if v = .bool true then .str "T" else .str "F"]
  enumerable := true

/-- Source function `defaultDescriptor(getter, setter)`: get is a direct
pass-through; set ignores `undefined` and forwards anything else. -/
def defaultDescriptor : Descriptor where
  get raw := raw
  set v := if v = .undef then [] else [v]
  enumerable := true

/-- The four converter kinds appearing in the descriptor tables. -/
inductive Converter where
  | dateTime (fieldType : String)
  | multiselect
  | checkbox
  | defaultDesc
deriving DecidableEq, Repr

/-- The descriptor realizing each converter kind. -/
def Converter.descriptor : Converter → Descriptor
  | .dateTime ft => dateTimeDescriptor ft
  | .multiselect => multiSelectDescriptor
  | .checkbox => checkboxDescriptor
  | .defaultDesc => defaultDescriptor

/-- Replays a list of recorded underlying-setter invocations against a
stored value: each invocation overwrites the store (the echo-store model
of the remote record), no invocation leaves it unchanged. -/
def applyCalls (calls : List JSVal) (store : JSVal) : JSVal :=
  calls.foldl (fun _ v => v) store

/-! ### Field-type selection (descriptor factory tables) -/

/-- Body-field type resolution from `addFieldProperties`: in a client
script the `getField` lookup is skipped so `field` stays undefined; the
field type is `field ? field.type : "defaultDesc"`.  `getFieldResult` is
`some t` when `getField` returned a truthy field object of type `t` and
`none` when it returned a falsy result. -/
def bodyFieldType (isClientScript : Bool) (getFieldResult : Option String) : String :=
  if isClientScript then "defaultDesc"
  else
    match getFieldResult with
    | some t => t
    | none => "defaultDesc"

/-- The `bodyFieldDescriptors` table keyed by NetSuite field type tag:
which converter the table holds for a tag, `none` for tags not present. -/
def bodyFieldDescriptors (tag : String) : Option Converter :=
  if tag = "date" then some (.dateTime "date")
  else if tag = "datetime" then some (.dateTime "datetime")
  else if tag = "datetimetz" then some (.dateTime "datetimetz")
  else if tag = "multiselect" then some .multiselect
  else if tag = "checkbox" then some .checkbox
  else if tag = "defaultDesc" then some .defaultDesc
  else none

/-- Models `(bodyFieldDescriptors[fieldType] || bodyFieldDescriptors["defaultDesc"])`:
the converter actually used for a body field. -/
def bodyConverterFor (isClientScript : Bool) (getFieldResult : Option String) : Converter :=
  (bodyFieldDescriptors (bodyFieldType isClientScript getFieldResult)).getD .defaultDesc

/-- The record-handle accessors a sublist descriptor binds to. -/
inductive Accessor where
  | getLineItemValue
  | setLineItemValue
  | getLineItemValues
  | setLineItemValues
deriving DecidableEq, Repr

/-- An argument bound into a getter/setter via `Function.prototype.bind`. -/
inductive Arg where
  | s (v : String)
  | n (v : Nat)
deriving DecidableEq, Repr

/-- A bound getter or setter: which handle accessor, and the argument list
fixed by `bind` (the coordinate the accessor is addressed with). -/
structure Binding where
  accessor : Accessor
  args : List Arg
deriving DecidableEq, Repr

/-- A sublist field descriptor: the converter applied plus the getter and
setter bindings it wraps. -/
structure SublistDescriptor where
  conv : Converter
  getB : Binding
  setB : Binding
deriving DecidableEq, Repr

/-- Sublist field type resolution from `addNewLineItem`: in a client
script the `getLineItemField` lookup is skipped, and a falsy lookup
result yields the tag "unknown" (`fieldObj ? fieldObj.type : "unknown"`). -/
def sublistFieldType (isClientScript : Bool) (getLineItemFieldResult : Option String) : String :=
  if isClientScript then "unknown"
  else
    match getLineItemFieldResult with
    | some t => t
    | none => "unknown"

/-- The `sublistFieldDescriptors` table from `addNewLineItem`, applied at
`(listname, fieldname, linenum)`.  Translated accessor by accessor from
the source: the three date tags and checkbox and defaultDesc bind
`getLineItemValue`/`setLineItemValue` to the full
`(listname, fieldname, linenum)` coordinate, while the multiselect entry
binds `getLineItemValues`/`setLineItemValues` to `(fieldname, linenum)`
only, exactly as the source does. -/
def sublistFieldDescriptors (tag listname fieldname : String) (linenum : Nat) :
    Option SublistDescriptor :=
  if tag = "date" ∨ tag = "datetime" ∨ tag = "datetimetz" then
    some ⟨.dateTime tag,
      ⟨.getLineItemValue, [.s listname, .s fieldname, .n linenum]⟩,
      ⟨.setLineItemValue, [.s listname, .s fieldname, .n linenum]⟩⟩
  else if tag = "multiselect" then
    some ⟨.multiselect,
      ⟨.getLineItemValues, [.s fieldname, .n linenum]⟩,
      ⟨.setLineItemValues, [.s fieldname, .n linenum]⟩⟩
  else if tag = "checkbox" then
    some ⟨.checkbox,
      ⟨.getLineItemValue, [.s listname, .s fieldname, .n linenum]⟩,
      ⟨.setLineItemValue, [.s listname, .s fieldname, .n linenum]⟩⟩
  else if tag = "defaultDesc" then
    some ⟨.defaultDesc,
      ⟨.getLineItemValue, [.s listname, .s fieldname, .n linenum]⟩,
      ⟨.setLineItemValue, [.s listname, .s fieldname, .n linenum]⟩⟩
  else none

/-- Models `(sublistFieldDescriptors[fieldType] || sublistFieldDescriptors["defaultDesc"])
(listname, name, linenum)`: the descriptor actually attached for a sublist
field. -/
def sublistDescriptorFor (tag listname fieldname : String) (linenum : Nat) :
    SublistDescriptor :=
  (sublistFieldDescriptors tag listname fieldname linenum).getD
    ⟨.defaultDesc,
      ⟨.getLineItemValue, [.s listname, .s fieldname, .n linenum]⟩,
      ⟨.setLineItemValue, [.s listname, .s fieldname, .n linenum]⟩⟩

/-! ### Sublist adapter (`withSublist`, `addNewLineItem`, `addLine`) -/

/-- A materialized sublist row: the 1-based line number fixed at creation
time and, per requested field name, the descriptor attached for it. -/
structure Row where
  linenum : Nat
  props : List (String × SublistDescriptor)
deriving DecidableEq, Repr

/-- Source function `list.addNewLineItem(linenum, recordObj)`, minus the
push onto the sequence (done by the callers below): builds a fresh row
whose every property descriptor is derived at the
`(listname, fieldname, linenum)` coordinate.  `meta` models
`recordObj.getLineItemField(listname, name)` (`some t` for a truthy field
object of type `t`, `none` for a falsy result). -/
def addNewLineItem (isClientScript : Bool) (meta : String → Option String)
    (listname : String) (propNames : List String) (linenum : Nat) : Row :=
  ⟨linenum,
    propNames.map fun name =>
      (name, sublistDescriptorFor (sublistFieldType isClientScript (meta name)) listname name linenum)⟩

/-- The sublist sequence state: the remote line count the handle reports
for this sublist, and the materialized rows in order. -/
structure SublistState where
  remoteCount : Nat
  rows : List Row
deriving DecidableEq, Repr

/-- Source function `withSublist(listname, propNames)` applied over a handle reporting
`numLines` existing lines: materializes one row per existing line,
1-based, by calling `addNewLineItem(i, this)` for i = 1..numLines. -/
def withSublist (isClientScript : Bool) (meta : String → Option String)
    (listname : String) (propNames : List String) (numLines : Nat) : SublistState :=
  ⟨numLines,
    (List.range numLines).map fun i =>
      addNewLineItem isClientScript meta listname propNames (i + 1)⟩

/-- Source function `list.addLine()`: reads the current remote line count
fresh, computes `insertLinePosition = parseInt(currentLineCount) + 1`,
inserts a blank line there (growing the remote count by one), then calls
`addNewLineItem(insertLinePosition, this.parent)` which pushes the new
row onto the sequence. -/
def addLine (isClientScript : Bool) (meta : String → Option String)
    (listname : String) (propNames : List String) (s : SublistState) : SublistState :=
  let insertLinePosition := s.remoteCount + 1
  ⟨s.remoteCount + 1,
    s.rows ++ [addNewLineItem isClientScript meta listname propNames insertLinePosition]⟩

/-! ### Field attachment loop of `addFieldProperties` (error handling) -/

/-- JavaScript errors: the source treats `TypeError` specially
(`e.constructor === TypeError`). -/
inductive JsError where
  | typeError (msg : String)
  | otherError (msg : String)
deriving DecidableEq, Repr

deriving instance DecidableEq for Except

/-- The `propNames.forEach` loop of `addFieldProperties`: `attach` models
one loop body up to `Object.defineProperty` (resolving metadata, building
the descriptor, defining the property), which may throw.  On success the
field name is recorded and the loop continues; on a thrown error the loop
stops, logs one `log.error` diagnostic naming the field when the error is
a `TypeError`, and re-raises the error.  Returns the loop outcome and the
list of `(title, detail)` log entries. -/
def addFieldProperties (attach : String → Except JsError Unit) :
    List String → Except JsError (List String) × List (String × String)
  | [] => (.ok [], [])
  | name :: rest =>
    match attach name with
    | .ok _ =>
      let r := addFieldProperties attach rest
      (r.1.map (fun l => name :: l), r.2)
    | .error e =>
      (.error e,
        match e with
        | .typeError _ =>
          [("addFieldProperties() error", "possibly invalid field name: " ++ name)]
        | .otherError _ => [])

/-! ### Pass-through allow-list of `fromRecord` -/

/-- The `nsdal.functionsToPassThru` allow-list, verbatim from the source. -/
def functionsToPassThru : List String :=
  ["getId",
   "getRecordType",
   "getField",
   "getSubList",
   "getMatrixField",
   "getLineItemField",
   "getLineItemMatrixField",
   "getLineItemMatrixValue",
   "setFieldValue",
   "setFieldValues",
   "getFieldValue",
   "getFieldValues",
   "setFieldText",
   "setFieldTexts",
   "getFieldText",
   "getFieldTexts",
   "getMatrixValue",
   "setMatrixValue",
   "getAllFields",
   "getAllLineItemFields",
   "setLineItemValue",
   "getLineItemValue",
   "getLineItemText",
   "setCurrentLineItemValue",
   "getCurrentLineItemValue",
   "getCurrentLineItemText",
   "setCurrentLineItemMatrixValue",
   "getCurrentLineItemMatrixValue",
   "getMatrixCount",
   "getLineItemCount",
   "findLineItemValue",
   "findLineItemMatrixValue",
   "insertLineItem",
   "removeLineItem",
   "selectNewLineItem",
   "selectLineItem",
   "viewLineItemSubrecord",
   "viewCurrentLineItemSubrecord",
   "createCurrentLineItemSubrecord",
   "editCurrentLineItemSubrecord",
   "removeCurrentLineItemSubrecord",
   "createSubrecord",
   "editSubrecord",
   "viewSubrecord",
   "removeSubrecord",
   "commitLineItem"]

/-- The pass-through portion of `fromRecord`: for each allow-listed name,
`var func = theRecord[name]; if (func) obj[name] = func.bind(theRecord)`.
`has` models whether the handle carries a (truthy) method of that name;
the result is the list of method names exposed on the adapted record. -/
def fromRecordPassThru (has : String → Bool) : List String :=
  functionsToPassThru.filter has

/-! ### `Object.defineProperty` semantics for the sublist sequence (C10) -/

/-- A data property as held on an adapted record object: the identity of
its value (object identity of the assigned array) plus the three
attributes. -/
structure DataProp where
  valueId : Nat
  writable : Bool
  enumerable : Bool
  configurable : Bool
deriving DecidableEq, Repr

/-- Models the ECMAScript ValidateAndApplyPropertyDescriptor steps for a
full data descriptor, as performed by `Object.defineProperty` (which
throws `TypeError` on rejection): a missing property is created; a
configurable property is replaced; a non-configurable one rejects any
change of configurability or enumerability, and, when also non-writable,
rejects making it writable or changing its value (object identity). -/
def defineOwnDataProperty (props : List (String × DataProp)) (name : String)
    (d : DataProp) : Except JsError (List (String × DataProp)) :=
  match props.lookup name with
  | none => .ok ((name, d) :: props)
  | some cur =>
    if cur.configurable then
      .ok (props.map fun p => if p.1 = name then (name, d) else p)
    else if d.configurable || (d.enumerable != cur.enumerable) then
      .error (.typeError "Cannot redefine property")
    else if cur.writable then
      .ok (props.map fun p => if p.1 = name then (name, d) else p)
    else if d.writable || (d.valueId != cur.valueId) then
      .error (.typeError "Cannot redefine property")
    else .ok props

/-- The `Object.defineProperty(this, listname, { value: [], writable:
false, enumerable: true })` call at the top of `withSublist`:
`configurable` defaults to `false`, and the value is a freshly allocated
array, so its object identity `freshArrayId` differs from every
previously used identity. -/
def withSublistDefineList (props : List (String × DataProp)) (freshArrayId : Nat)
    (listname : String) : Except JsError (List (String × DataProp)) :=
  defineOwnDataProperty props listname ⟨freshArrayId, false, true, false⟩

/-! ## Claim theorems -/

/-- C1: for every one of the four converters, calling `set` with the
"not provided" sentinel `undefined` is a no-op — the underlying bound
setter is never invoked and the stored value is unchanged — while for any
other argument (including `null`, `false`, the empty string and the empty
list) the underlying setter is invoked exactly once. -/
theorem C1_set_undefined_noop_otherwise_once (c : Converter) (v store : JSVal)
    (h : v ≠ .undef) :
    c.descriptor.set .undef = [] ∧
    applyCalls (c.descriptor.set .undef) store = store ∧
    (c.descriptor.set v).length = 1 := by
  cases c with
  | dateTime ft =>
    refine ⟨rfl, rfl, ?_⟩
    simp only [Converter.descriptor, dateTimeDescriptor, if_neg h]
    split <;> simp
  | multiselect =>
    refine ⟨rfl, rfl, ?_⟩
    simp [Converter.descriptor, multiSelectDescriptor, h]
  | checkbox =>
    refine ⟨rfl, rfl, ?_⟩
    simp [Converter.descriptor, checkboxDescriptor, h]
  | defaultDesc =>
    refine ⟨rfl, rfl, ?_⟩
    simp [Converter.descriptor, defaultDescriptor, h]

/-- Witness for C1 at the checkbox converter and the explicit value
`null`. -/
theorem C1_witness :
    JSVal.null ≠ JSVal.undef ∧
    (Converter.checkbox.descriptor.set .undef = [] ∧
      applyCalls (Converter.checkbox.descriptor.set .undef) (JSVal.str "x") = JSVal.str "x" ∧
      (Converter.checkbox.descriptor.set JSVal.null).length = 1) :=
  ⟨by decide, C1_set_undefined_noop_otherwise_once .checkbox .null (.str "x") (by decide)⟩

/-- C3 (counterexample): the claim says `set` with any defined value other
than `null` serializes it as a date before calling the setter, but the
source forwards `null` for every falsy defined value: at the concrete
input `false` the setter is called with `null`, not with the serialized
date string. -/
theorem C3_counterexample :
    JSVal.bool false ≠ JSVal.undef ∧
    JSVal.bool false ≠ JSVal.null ∧
    (dateTimeDescriptor "date").set (JSVal.bool false) = [JSVal.null] ∧
    (dateTimeDescriptor "date").set (JSVal.bool false) ≠
      [JSVal.str (nlapiDateToString (momentToDate (JSVal.bool false)) "date")] := by
  decide

/-- C3 (amended): for the date/time converter, `get` with a falsy raw
stored value returns that raw value unchanged and with a truthy raw value
returns the parse of it under the declared sub-type; `set` with any
defined falsy value — `null` included — calls the setter once with `null`
to clear the field, and `set` with any truthy value converts it to a
native date and serializes it back to the remote string format for the
sub-type before calling the setter. -/
theorem C3_dateTime_get_set (ft : String) (rawF rawT vF vT : JSVal)
    (hrF : truthy rawF = false) (hrT : truthy rawT = true)
    (hvF : vF ≠ .undef) (hvF2 : truthy vF = false) (hvT : truthy vT = true) :
    (dateTimeDescriptor ft).get rawF = rawF ∧
    (dateTimeDescriptor ft).get rawT = .momentDate rawT ft ∧
    (dateTimeDescriptor ft).set .null = [.null] ∧
    (dateTimeDescriptor ft).set vF = [.null] ∧
    (dateTimeDescriptor ft).set vT = [.str (nlapiDateToString (momentToDate vT) ft)] := by
  have hvT0 : vT ≠ .undef := by
    rintro rfl
    simp [truthy] at hvT
  refine ⟨?_, ?_, ?_, ?_, ?_⟩
  · simp [dateTimeDescriptor, hrF]
  · simp [dateTimeDescriptor, hrT]
  · rfl
  · simp [dateTimeDescriptor, hvF, hvF2]
  · simp [dateTimeDescriptor, hvT, hvT0]

/-- Witness for C3 at a concrete falsy raw value, truthy raw value, falsy
assigned value and truthy assigned value. -/
theorem C3_witness :
    truthy JSVal.null = false ∧
    truthy (JSVal.str "1/2/2020") = true ∧
    JSVal.bool false ≠ JSVal.undef ∧
    truthy (JSVal.bool false) = false ∧
    ((dateTimeDescriptor "date").get JSVal.null = JSVal.null ∧
      (dateTimeDescriptor "date").get (JSVal.str "1/2/2020") =
        .momentDate (JSVal.str "1/2/2020") "date" ∧
      (dateTimeDescriptor "date").set .null = [.null] ∧
      (dateTimeDescriptor "date").set (JSVal.bool false) = [.null] ∧
      (dateTimeDescriptor "date").set (JSVal.str "1/2/2020") =
        [.str (nlapiDateToString (momentToDate (JSVal.str "1/2/2020")) "date")]) :=
  ⟨by decide, by decide, by decide, by decide,
    C3_dateTime_get_set "date" .null (.str "1/2/2020") (.bool false) (.str "1/2/2020")
      (by decide) (by decide) (by decide) (by decide) (by decide)⟩

/-- C5: the checkbox converter reads `true` iff the raw stored value is
the literal token "T" (anything else reads `false`), writes `true` as "T"
and any other defined value as "F", and round-trips both booleans over an
echoing store. -/
theorem C5_checkbox_iff_and_roundtrip (raw v store : JSVal) (h : v ≠ .undef) :
    (checkboxDescriptor.get raw = .bool true ↔ raw = .str "T") ∧
    (raw ≠ .str "T" → checkboxDescriptor.get raw = .bool false) ∧
    checkboxDescriptor.set v = [if v = .bool true then .str "T" else .str "F"] ∧
    checkboxDescriptor.get (applyCalls (checkboxDescriptor.set (.bool true)) store) =
      .bool true ∧
    checkboxDescriptor.get (applyCalls (checkboxDescriptor.set (.bool false)) store) =
      .bool false := by
  refine ⟨?_, ?_, ?_, ?_, ?_⟩
  · simp [checkboxDescriptor]
  · intro hne
    simp [checkboxDescriptor, hne]
  · simp [checkboxDescriptor, h]
  · simp [checkboxDescriptor, applyCalls]
  · simp [checkboxDescriptor, applyCalls]

/-- Witness for C5 at the stored token "F" and the assigned value
`false`. -/
theorem C5_witness :
    JSVal.bool false ≠ JSVal.undef ∧
    ((checkboxDescriptor.get (.str "F") = .bool true ↔ JSVal.str "F" = .str "T") ∧
      (JSVal.str "F" ≠ .str "T" → checkboxDescriptor.get (.str "F") = .bool false) ∧
      checkboxDescriptor.set (.bool false) =
        [if JSVal.bool false = .bool true then .str "T" else .str "F"] ∧
      checkboxDescriptor.get (applyCalls (checkboxDescriptor.set (.bool true)) .null) =
        .bool true ∧
      checkboxDescriptor.get (applyCalls (checkboxDescriptor.set (.bool false)) .null) =
        .bool false) :=
  ⟨by decide, C5_checkbox_iff_and_roundtrip (.str "F") (.bool false) .null (by decide)⟩

/-- C6: the multiselect converter reads a stored list as-is and
substitutes the empty list for an absent (`null` or `undefined`) stored
value, never surfacing the absent sentinel; it forwards any defined
assigned value as-is (the empty list included), so over an echoing store
setting `[]` and reading back yields `[]`. -/
theorem C6_multiselect_absent_empty (v store : JSVal) (xs : List String)
    (h : v ≠ .undef) :
    multiSelectDescriptor.get .null = .list [] ∧
    multiSelectDescriptor.get .undef = .list [] ∧
    multiSelectDescriptor.get (.list xs) = .list xs ∧
    multiSelectDescriptor.set v = [v] ∧
    multiSelectDescriptor.get (applyCalls (multiSelectDescriptor.set (.list [])) store) =
      .list [] := by
  simp [multiSelectDescriptor, applyCalls, truthy, h]

/-- Witness for C6 at the assigned value `null` and a two-element stored
list. -/
theorem C6_witness :
    JSVal.null ≠ JSVal.undef ∧
    (multiSelectDescriptor.get .null = .list [] ∧
      multiSelectDescriptor.get .undef = .list [] ∧
      multiSelectDescriptor.get (.list ["1", "2"]) = .list ["1", "2"] ∧
      multiSelectDescriptor.set JSVal.null = [JSVal.null] ∧
      multiSelectDescriptor.get (applyCalls (multiSelectDescriptor.set (.list [])) (.str "s")) =
        .list []) :=
  ⟨by decide, C6_multiselect_absent_empty .null (.str "s") ["1", "2"] (by decide)⟩

/-- C2: evaluation of the sublist descriptor factory at the failing
input.  For a multiselect-typed sublist field the source binds the
getter and setter to `(fieldname, linenum)` only — the sublist name is
dropped — whereas every other field type (checkbox shown for contrast)
binds the full `(listname, fieldname, linenum)` coordinate as the claim
states. -/
theorem C2_multiselect_binding_drops_listname :
    (sublistDescriptorFor "multiselect" "addressbook" "addr1" 1).getB =
      ⟨.getLineItemValues, [.s "addr1", .n 1]⟩ ∧
    (sublistDescriptorFor "multiselect" "addressbook" "addr1" 1).setB =
      ⟨.setLineItemValues, [.s "addr1", .n 1]⟩ ∧
    Arg.s "addressbook" ∉ (sublistDescriptorFor "multiselect" "addressbook" "addr1" 1).getB.args ∧
    Arg.s "addressbook" ∉ (sublistDescriptorFor "multiselect" "addressbook" "addr1" 1).setB.args ∧
    (sublistDescriptorFor "checkbox" "addressbook" "addr1" 1).getB.args =
      [.s "addressbook", .s "addr1", .n 1] ∧
    (sublistDescriptorFor "checkbox" "addressbook" "addr1" 1).setB.args =
      [.s "addressbook", .s "addr1", .n 1] := by
  decide

theorem addNewLineItem_linenum (isClientScript : Bool) (meta : String → Option String)
    (listname : String) (propNames : List String) (linenum : Nat) :
    (addNewLineItem isClientScript meta listname propNames linenum).linenum = linenum :=
  rfl

/-- C4: over a handle reporting N existing lines, `withSublist`
materializes a sequence of exactly N rows bound to the 1-based lines
1..N, and one subsequent `addLine()` grows both the sequence and the
remote line count to N + 1, appending a row whose properties are bound to
line N + 1 — the fresh remote count at insertion time plus one. -/
theorem C4_sublist_count_invariant (isClientScript : Bool) (meta : String → Option String)
    (listname : String) (propNames : List String) (N : Nat) :
    (withSublist isClientScript meta listname propNames N).rows.length = N ∧
    (withSublist isClientScript meta listname propNames N).rows.map Row.linenum =
      (List.range N).map (fun i => i + 1) ∧
    (addLine isClientScript meta listname propNames
        (withSublist isClientScript meta listname propNames N)).rows.length = N + 1 ∧
    (addLine isClientScript meta listname propNames
        (withSublist isClientScript meta listname propNames N)).remoteCount = N + 1 ∧
    (addLine isClientScript meta listname propNames
        (withSublist isClientScript meta listname propNames N)).rows =
      (withSublist isClientScript meta listname propNames N).rows ++
        [addNewLineItem isClientScript meta listname propNames (N + 1)] := by
  refine ⟨?_, ?_, ?_, rfl, rfl⟩
  · simp [withSublist]
  · simp [withSublist, addNewLineItem_linenum, Function.comp]
  · simp [addLine, withSublist]

/-- C7: if attaching some field during record adaptation raises an error,
the `addFieldProperties` loop re-raises that same error to the caller —
no error is ever suppressed — and when the error is a `TypeError` it
first logs one diagnostic whose detail names the offending field. -/
theorem C7_attach_error_logged_and_reraised (attach : String → Except JsError Unit)
    (pre post : List String) (name : String) (e : JsError)
    (hpre : ∀ n ∈ pre, attach n = .ok ()) (hname : attach name = .error e) :
    (addFieldProperties attach (pre ++ name :: post)).1 = .error e ∧
    ∀ m, e = .typeError m →
      (addFieldProperties attach (pre ++ name :: post)).2 =
        [("addFieldProperties() error", "possibly invalid field name: " ++ name)] := by
  induction pre with
  | nil =>
    refine ⟨?_, ?_⟩
    · simp [addFieldProperties, hname]
    · intro m hm
      subst hm
      simp [addFieldProperties, hname]
  | cons a t ih =>
    have ha : attach a = .ok () := hpre a (List.mem_cons_self a t)
    have iht := ih fun n hn => hpre n (List.mem_cons_of_mem a hn)
    refine ⟨?_, ?_⟩
    · have h1 := iht.1
      simp [addFieldProperties, ha, h1, Except.map]
    · intro m hm
      simpa [addFieldProperties, ha] using iht.2 m hm

/-- Witness for C7: a concrete attach function failing with a `TypeError`
on the field "badfield", after one successful field and before one never
reached. -/
theorem C7_witness :
    (∀ n ∈ ["comments"],
      (fun s =>
        if s ≠ "badfield" then Except.ok ()
        else Except.error (JsError.typeError "x is not a function")) n = Except.ok ()) ∧
    (fun s =>
      if s ≠ "badfield" then Except.ok ()
      else Except.error (JsError.typeError "x is not a function")) "badfield" =
        Except.error (JsError.typeError "x is not a function") ∧
    ((addFieldProperties
        (fun n =>
          if n ≠ "badfield" then Except.ok ()
          else Except.error (JsError.typeError "x is not a function"))
        (["comments"] ++ "badfield" :: ["title"])).1 =
      Except.error (JsError.typeError "x is not a function") ∧
    ∀ m, JsError.typeError "x is not a function" = .typeError m →
      (addFieldProperties
          (fun n =>
            if n ≠ "badfield" then Except.ok ()
            else Except.error (JsError.typeError "x is not a function"))
          (["comments"] ++ "badfield" :: ["title"])).2 =
        [("addFieldProperties() error", "possibly invalid field name: " ++ "badfield")]) :=
  ⟨by decide, by decide,
    C7_attach_error_logged_and_reraised
      (fun n =>
        if n ≠ "badfield" then Except.ok ()
        else Except.error (JsError.typeError "x is not a function"))
      ["comments"] ["title"] "badfield" (JsError.typeError "x is not a function")
      (by decide) (by decide)⟩

/-- C8: whenever field metadata is unavailable — client-script execution
context (metadata lookup skipped), a falsy metadata lookup result, or a
returned type tag outside the recognized set — the descriptor factories
select the default/identity converter, for body fields and sublist fields
alike, without raising. -/
theorem C8_metadata_fallback_default (r : Option String)
    (tag listname fieldname : String) (n : Nat)
    (h : tag ∉ ["date", "datetime", "datetimetz", "multiselect", "checkbox"]) :
    bodyConverterFor true r = .defaultDesc ∧
    bodyConverterFor false none = .defaultDesc ∧
    (sublistDescriptorFor (sublistFieldType true r) listname fieldname n).conv =
      .defaultDesc ∧
    (sublistDescriptorFor (sublistFieldType false none) listname fieldname n).conv =
      .defaultDesc ∧
    bodyConverterFor false (some tag) = .defaultDesc ∧
    (sublistDescriptorFor (sublistFieldType false (some tag)) listname fieldname n).conv =
      .defaultDesc := by
  simp only [List.mem_cons, List.not_mem_nil, or_false, not_or] at h
  obtain ⟨h1, h2, h3, h4, h5⟩ := h
  refine ⟨rfl, rfl, rfl, rfl, ?_, ?_⟩
  · by_cases hd : tag = "defaultDesc"
    · subst hd; rfl
    · simp [bodyConverterFor, bodyFieldType, bodyFieldDescriptors, h1, h2, h3, h4, h5, hd]
  · by_cases hd : tag = "defaultDesc"
    · subst hd; rfl
    · simp [sublistDescriptorFor, sublistFieldType, sublistFieldDescriptors,
        h1, h2, h3, h4, h5, hd]

/-- Witness for C8 at the explicit tag "unknown" (the sublist marker for
unavailable metadata, not present in either table). -/
theorem C8_witness :
    "unknown" ∉ ["date", "datetime", "datetimetz", "multiselect", "checkbox"] ∧
    (bodyConverterFor true (some "date") = .defaultDesc ∧
      bodyConverterFor false none = .defaultDesc ∧
      (sublistDescriptorFor (sublistFieldType true (some "date")) "addressbook" "custfield" 1).conv =
        .defaultDesc ∧
      (sublistDescriptorFor (sublistFieldType false none) "addressbook" "custfield" 1).conv =
        .defaultDesc ∧
      bodyConverterFor false (some "unknown") = .defaultDesc ∧
      (sublistDescriptorFor (sublistFieldType false (some "unknown")) "addressbook" "custfield" 1).conv =
        .defaultDesc) :=
  ⟨by decide,
    C8_metadata_fallback_default (some "date") "unknown" "addressbook" "custfield" 1 (by decide)⟩

/-- C9: the adapted record exposes an allow-listed method exactly when the
handle carries it — every allow-listed method present on the handle is
copied, every absent one is skipped without raising, and nothing outside
the allow-list is copied by the pass-through step. -/
theorem C9_passthru_iff_present (has : String → Bool) (name : String)
    (h : name ∈ functionsToPassThru) :
    (name ∈ fromRecordPassThru has ↔ has name = true) ∧
    (has name = false → name ∉ fromRecordPassThru has) ∧
    ∀ n ∈ fromRecordPassThru has, n ∈ functionsToPassThru := by
  refine ⟨?_, ?_, ?_⟩
  · simp [fromRecordPassThru, List.mem_filter, h]
  · intro hf
    simp [fromRecordPassThru, List.mem_filter, hf]
  · intro n hn
    exact (List.mem_filter.mp hn).1

/-- Witness for C9 over a handle exposing only `getId`: the allow-listed
method `createSubrecord` is absent from the handle and therefore not
exposed. -/
theorem C9_witness :
    "createSubrecord" ∈ functionsToPassThru ∧
    (("createSubrecord" ∈ fromRecordPassThru (fun s => s == "getId") ↔
        (fun s : String => s == "getId") "createSubrecord" = true) ∧
      ((fun s : String => s == "getId") "createSubrecord" = false →
        "createSubrecord" ∉ fromRecordPassThru (fun s => s == "getId")) ∧
      ∀ n ∈ fromRecordPassThru (fun s => s == "getId"), n ∈ functionsToPassThru) :=
  ⟨by decide, C9_passthru_iff_present (fun s => s == "getId") "createSubrecord" (by decide)⟩

/-- C10: calling `withSublist` twice with the same sublist name raises a
`TypeError` — the first call defines the sequence property non-writable
and non-configurable, and the second call attempts to redefine it with a
freshly allocated array (a different object identity), which
`Object.defineProperty` rejects. -/
theorem C10_withSublist_redefine_raises (props : List (String × DataProp))
    (listname : String) (id1 id2 : Nat)
    (h : props.lookup listname = none) (hid : id1 ≠ id2) :
    withSublistDefineList props id1 listname =
      .ok ((listname, ⟨id1, false, true, false⟩) :: props) ∧
    withSublistDefineList ((listname, ⟨id1, false, true, false⟩) :: props) id2 listname =
      .error (.typeError "Cannot redefine property") := by
  constructor
  · simp [withSublistDefineList, defineOwnDataProperty, h]
  · have hne : (id2 != id1) = true := by
      simp [bne_iff_ne]
      exact Ne.symm hid
    simp [withSublistDefineList, defineOwnDataProperty, List.lookup, hne]

/-- Witness for C10 on a record with no properties, attaching the sublist
"addressbook" twice with distinct fresh array identities. -/
theorem C10_witness :
    List.lookup "addressbook" ([] : List (String × DataProp)) = none ∧
    (0 : Nat) ≠ 1 ∧
    (withSublistDefineList [] 0 "addressbook" =
        .ok [("addressbook", ⟨0, false, true, false⟩)] ∧
      withSublistDefineList [("addressbook", ⟨0, false, true, false⟩)] 1 "addressbook" =
        .error (.typeError "Cannot redefine property")) :=
  ⟨rfl, by decide, C10_withSublist_redefine_raises [] "addressbook" 0 1 rfl (by decide)⟩

end Nsdal
